import Mathlib

/-!
Verification development for the sysprobe host-telemetry probe.

The C sources are shallowly embedded: C `long` becomes `Int`, C `double`
becomes `ℚ` (the probe's arithmetic is exact on the rationals it
manipulates), OS interactions become explicit environment values, and a
reachable undefined behavior is modelled as `Option.none`.
-/

/-- Mirror of `struct cpu_stat` (cpu.h): cumulative tick counters. -/
structure cpu_stat where
  user : Int
  nice : Int
  system : Int
  idle : Int
deriving DecidableEq, Repr

/-- Mirror of `cpu_usage` in cpu.c: utilization percent from two
cumulative snapshots, 0 when the total ticks did not advance. -/
def cpu_usage (prev curr : cpu_stat) : ℚ :=
  let prev_idle := prev.idle
  let curr_idle := curr.idle
  let prev_total := prev.user + prev.nice + prev.system + prev.idle
  let curr_total := curr.user + curr.nice + curr.system + curr.idle
  let total_delta := curr_total - prev_total
  let idle_delta := curr_idle - prev_idle
  if total_delta = 0 then 0
  else 100 * ((total_delta - idle_delta : Int) : ℚ) / ((total_delta : Int) : ℚ)

/-- C2: `cpu_usage` returns exactly 0 when the four-field sums of the two
snapshots agree, and otherwise returns `100 * (deltaTotal - deltaIdle) /
deltaTotal` where `deltaTotal` is the difference of the four-field sums
and `deltaIdle = curr.idle - prev.idle`, with no clamping. -/
theorem cpu_usage_formula (prev curr : cpu_stat) :
    (prev.user + prev.nice + prev.system + prev.idle =
        curr.user + curr.nice + curr.system + curr.idle →
      cpu_usage prev curr = 0) ∧
    (prev.user + prev.nice + prev.system + prev.idle ≠
        curr.user + curr.nice + curr.system + curr.idle →
      cpu_usage prev curr =
        100 * (((curr.user + curr.nice + curr.system + curr.idle)
                  - (prev.user + prev.nice + prev.system + prev.idle)
                  - (curr.idle - prev.idle) : Int) : ℚ)
          / (((curr.user + curr.nice + curr.system + curr.idle)
                  - (prev.user + prev.nice + prev.system + prev.idle) : Int) : ℚ)) := by
  constructor
  · intro h
    simp [cpu_usage, h.symm]
  · intro h
    have hne : (curr.user + curr.nice + curr.system + curr.idle)
        - (prev.user + prev.nice + prev.system + prev.idle) ≠ 0 := by
      intro hz
      exact h (by omega)
    simp [cpu_usage, hne]

/-- C2 witness: concrete snapshots exercising both branches: equal totals
give 0, and (deltaTotal, deltaIdle) = (100, 20) gives 80. -/
theorem cpu_usage_formula_witness :
    cpu_usage ⟨1, 2, 3, 4⟩ ⟨4, 3, 2, 1⟩ = 0 ∧
    cpu_usage ⟨0, 0, 0, 0⟩ ⟨40, 20, 20, 20⟩ = 80 := by
  refine ⟨(cpu_usage_formula ⟨1, 2, 3, 4⟩ ⟨4, 3, 2, 1⟩).1 (by decide), ?_⟩
  have h := (cpu_usage_formula ⟨0, 0, 0, 0⟩ ⟨40, 20, 20, 20⟩).2 (by decide)
  rw [h]
  norm_num

/-- C10: `cpu_usage` depends only on the componentwise differences of the
snapshots: shifting both snapshots by the same offsets leaves it unchanged. -/
theorem cpu_usage_shift_invariant (prev curr d : cpu_stat) :
    cpu_usage ⟨prev.user + d.user, prev.nice + d.nice,
               prev.system + d.system, prev.idle + d.idle⟩
              ⟨curr.user + d.user, curr.nice + d.nice,
               curr.system + d.system, curr.idle + d.idle⟩
      = cpu_usage prev curr := by
  have htot : (curr.user + d.user + (curr.nice + d.nice)
        + (curr.system + d.system) + (curr.idle + d.idle))
      - (prev.user + d.user + (prev.nice + d.nice)
        + (prev.system + d.system) + (prev.idle + d.idle))
      = (curr.user + curr.nice + curr.system + curr.idle)
        - (prev.user + prev.nice + prev.system + prev.idle) := by ring
  have hidle : (curr.idle + d.idle) - (prev.idle + d.idle)
      = curr.idle - prev.idle := by ring
  simp only [cpu_usage, htot, hidle]

/-- Mirror of `sys_state` (state.h). -/
inductive sys_state where
  | SYS_OK
  | SYS_WARN
  | SYS_DANGER
deriving DecidableEq, Repr

/-- Mirror of `cpu_state_from_avg` (state.c): strict thresholds at 95 and 85. -/
def cpu_state_from_avg (avg : ℚ) : sys_state :=
  if avg > 95 then .SYS_DANGER
  else if avg > 85 then .SYS_WARN
  else .SYS_OK

/-- Mirror of `mem_stat` (mem.h): memory/swap figures in kilobytes. -/
structure mem_stat where
  mem_total_kb : Int
  mem_avail_kb : Int
  swap_total_kb : Int
  swap_free_kb : Int
deriving DecidableEq, Repr

/-- Mirror of `mem_state_from_capacity` (state.c) for a non-null snapshot.
Note: the source computes `swap_used` as a plain ratio (no factor of 100)
and then compares it against 80. -/
def mem_state_from_capacity (cap : mem_stat) : sys_state :=
  if cap.mem_total_kb = 0 then .SYS_OK
  else
    let avail_ratio : ℚ := (cap.mem_avail_kb : ℚ) / (cap.mem_total_kb : ℚ)
    let swap_used : ℚ :=
      if cap.swap_total_kb > 0 then
        ((cap.swap_total_kb - cap.swap_free_kb : Int) : ℚ) / (cap.swap_total_kb : ℚ)
      else 0
    if avail_ratio < 5 / 100 then .SYS_DANGER
    else if avail_ratio < 1 / 10 ∨ swap_used > 80 then .SYS_WARN
    else .SYS_OK

/-- C6: `cpu_state_from_avg` uses strict inequalities, boundary values
classifying as the lower state: above 95 is DANGER, above 85 (up to 95)
is WARN, at or below 85 is OK; in particular 85 gives OK, 85.1 gives
WARN, 95 gives WARN, 95.1 gives DANGER. -/
theorem cpu_state_from_avg_boundaries :
    (∀ avg : ℚ, avg > 95 → cpu_state_from_avg avg = .SYS_DANGER) ∧
    (∀ avg : ℚ, avg ≤ 95 → avg > 85 → cpu_state_from_avg avg = .SYS_WARN) ∧
    (∀ avg : ℚ, avg ≤ 85 → cpu_state_from_avg avg = .SYS_OK) ∧
    cpu_state_from_avg 85 = .SYS_OK ∧
    cpu_state_from_avg (851 / 10) = .SYS_WARN ∧
    cpu_state_from_avg 95 = .SYS_WARN ∧
    cpu_state_from_avg (951 / 10) = .SYS_DANGER := by
  refine ⟨?_, ?_, ?_, by norm_num [cpu_state_from_avg], by norm_num [cpu_state_from_avg],
    by norm_num [cpu_state_from_avg], by norm_num [cpu_state_from_avg]⟩
  · intro avg h
    simp [cpu_state_from_avg, h]
  · intro avg h95 h85
    simp [cpu_state_from_avg, h85, not_lt.mpr h95]
  · intro avg h
    have h95 : avg ≤ 95 := le_trans h (by norm_num)
    simp [cpu_state_from_avg, not_lt.mpr h, not_lt.mpr h95]

/-- C6 witness: the quantified parts applied at 96, 90 and 50. -/
theorem cpu_state_from_avg_boundaries_witness :
    cpu_state_from_avg 96 = .SYS_DANGER ∧
    cpu_state_from_avg 90 = .SYS_WARN ∧
    cpu_state_from_avg 50 = .SYS_OK :=
  ⟨cpu_state_from_avg_boundaries.1 96 (by norm_num),
   cpu_state_from_avg_boundaries.2.1 90 (by norm_num) (by norm_num),
   cpu_state_from_avg_boundaries.2.2.1 50 (by norm_num)⟩

/-- C8: with `mem_total_kb = 0` the classifier returns OK regardless of the
other fields. -/
theorem mem_state_zero_total_ok (cap : mem_stat) (h : cap.mem_total_kb = 0) :
    mem_state_from_capacity cap = .SYS_OK := by
  simp [mem_state_from_capacity, h]

/-- C8 witness: a degenerate snapshot with nonzero other fields. -/
theorem mem_state_zero_total_ok_witness :
    mem_state_from_capacity ⟨0, 7, 100, 1⟩ = .SYS_OK :=
  mem_state_zero_total_ok ⟨0, 7, 100, 1⟩ (by decide)

/-- C1: evaluation of the classifier at the claim's example snapshot
(totalKb = 100, availableKb = 50, swapTotalKb = 100, swapFreeKb = 10,
i.e. 90 percent of swap in use). The source compares the un-scaled swap
ratio 0.9 against the threshold 80, so the swap trigger never fires and
the result is OK, where the claim expects WARN. -/
theorem mem_state_swap_example_is_ok :
    mem_state_from_capacity ⟨100, 50, 100, 10⟩ = .SYS_OK := by
  norm_num [mem_state_from_capacity]

/-- Mirror of the `CPU_WINDOW` capacity constant (window.h). -/
def CPU_WINDOW : Nat := 10

/-- Mirror of `cpu_window` (window.h): a fixed array of samples, a write
cursor and a count of valid entries. The array is kept as a list of
length `CPU_WINDOW`. -/
structure cpu_window where
  samples : List ℚ
  index : Nat
  count : Nat
deriving DecidableEq, Repr

/-- Mirror of `cpu_window_init` (window.c); the C array contents are left
uninitialised and never read before being written, modelled as zeros. -/
def cpu_window_init : cpu_window :=
  { samples := List.replicate CPU_WINDOW 0, index := 0, count := 0 }

/-- Mirror of `cpu_window_add` (window.c): overwrite the slot at the
cursor, advance the cursor modulo the capacity, cap the count. -/
def cpu_window_add (w : cpu_window) (value : ℚ) : cpu_window :=
  { samples := w.samples.set w.index value
    index := (w.index + 1) % CPU_WINDOW
    count := if w.count < CPU_WINDOW then w.count + 1 else w.count }

/-- The summation loop of `cpu_window_avg`: `for i in [0, n) sum += samples[i]`. -/
def cpu_window_sum (w : cpu_window) : Nat → ℚ
  | 0 => 0
  | n + 1 => cpu_window_sum w n + w.samples.getD n 0

/-- Mirror of `cpu_window_avg` (window.c): mean of the first `count`
slots, 0 when the count is zero. -/
def cpu_window_avg (w : cpu_window) : ℚ :=
  if w.count = 0 then 0 else cpu_window_sum w w.count / w.count

/-- Feed a list of values into a window in order. -/
def cpu_window_add_all (w : cpu_window) (vs : List ℚ) : cpu_window :=
  vs.foldl cpu_window_add w

lemma cpu_window_sum_eq_finset_sum (w : cpu_window) (n : Nat) :
    cpu_window_sum w n = ∑ i ∈ Finset.range n, w.samples.getD i 0 := by
  induction n with
  | zero => simp [cpu_window_sum]
  | succ n ih => rw [cpu_window_sum, ih, Finset.sum_range_succ]

/-- C7: `cpu_window_avg` returns the sum of the `count` valid samples
divided by `count`, and 0 when the count is zero; a fresh window
averages 0, and after adding exactly 10, 20, 30 it averages 20. -/
theorem cpu_window_avg_spec :
    (∀ w : cpu_window, w.count = 0 → cpu_window_avg w = 0) ∧
    (∀ w : cpu_window, w.count ≠ 0 →
      cpu_window_avg w = (∑ i ∈ Finset.range w.count, w.samples.getD i 0) / w.count) ∧
    cpu_window_avg cpu_window_init = 0 ∧
    cpu_window_avg (cpu_window_add_all cpu_window_init [10, 20, 30]) = 20 := by
  refine ⟨?_, ?_, ?_, ?_⟩
  · intro w h
    simp [cpu_window_avg, h]
  · intro w h
    rw [cpu_window_avg, if_neg h, cpu_window_sum_eq_finset_sum]
  · rfl
  · norm_num [cpu_window_add_all, cpu_window_init, cpu_window_add, cpu_window_avg,
      cpu_window_sum, CPU_WINDOW, List.replicate, List.set]

/-- C7 witness: the quantified parts applied to an empty window and to a
two-sample window holding 3 and 5. -/
theorem cpu_window_avg_spec_witness :
    cpu_window_avg ⟨[7, 7, 7], 0, 0⟩ = 0 ∧
    cpu_window_avg ⟨[3, 5, 0], 2, 2⟩ = (∑ i ∈ Finset.range 2, [(3 : ℚ), 5, 0].getD i 0) / 2 :=
  ⟨cpu_window_avg_spec.1 ⟨[7, 7, 7], 0, 0⟩ rfl,
   cpu_window_avg_spec.2.1 ⟨[3, 5, 0], 2, 2⟩ (by decide)⟩

/-- C5: adding the eleven values 0, 1, ..., 10 to a fresh capacity-10
window evicts the first value: the buffer then holds exactly the values
1..10 (as a multiset) with a full count, and the average is 5.5. -/
theorem cpu_window_eviction :
    ((cpu_window_add_all cpu_window_init
        [0, 1, 2, 3, 4, 5, 6, 7, 8, 9, 10]).samples).Perm
      [1, 2, 3, 4, 5, 6, 7, 8, 9, 10] ∧
    (cpu_window_add_all cpu_window_init
        [0, 1, 2, 3, 4, 5, 6, 7, 8, 9, 10]).count = CPU_WINDOW ∧
    cpu_window_avg (cpu_window_add_all cpu_window_init
        [0, 1, 2, 3, 4, 5, 6, 7, 8, 9, 10]) = 11 / 2 := by
  have hs : (cpu_window_add_all cpu_window_init
      [0, 1, 2, 3, 4, 5, 6, 7, 8, 9, 10]) = ⟨[10, 1, 2, 3, 4, 5, 6, 7, 8, 9], 1, 10⟩ := by
    norm_num [cpu_window_add_all, cpu_window_init, cpu_window_add, CPU_WINDOW,
      List.replicate, List.set]
  rw [hs]
  refine ⟨?_, rfl, ?_⟩
  · exact @List.perm_append_comm ℚ [10] [1, 2, 3, 4, 5, 6, 7, 8, 9]
  · norm_num [cpu_window_avg, cpu_window_sum]

/-- Mirror of `struct cpu_capacity` (cpu.h). -/
structure cpu_capacity where
  cores : Int
  max_freq_khz : Int
deriving DecidableEq, Repr

/-- Environment of `read_cpu_capacity`: the processor-count query result
(negative or zero on failure) and the per-core max-frequency file, which
is absent (`none`), present but unparseable (`some none`), or present
with a value (`some (some v)`). -/
structure cpu_env where
  nprocessors : Int
  freq_file : Option (Option Int)
deriving DecidableEq, Repr

/-- Mirror of `read_cpu_capacity` (cpu.c) with a non-null argument. When
`fopen` fails the function prints a message but then still executes
`fclose(f)` with `f = NULL`, which is undefined behavior, modelled as
`none`; otherwise it returns 0 with the filled structure. -/
def read_cpu_capacity (env : cpu_env) : Option cpu_capacity :=
  let cores := if env.nprocessors < 1 then 1 else env.nprocessors
  match env.freq_file with
  | none => none
  | some parse =>
      let freq := match parse with
        | some v => v
        | none => -1
      some ⟨cores, freq⟩

/-- C3: evaluation of `read_cpu_capacity` on the three kinds of
environment. When the frequency file is absent the call reaches
`fclose(NULL)` (undefined behavior, `none`) instead of succeeding with
an unknown frequency as the claim states; when the file opens, the call
succeeds, with the core count defaulting to 1 on query failure and the
frequency left at -1 on a parse miss. -/
theorem read_cpu_capacity_freq_absent_crashes :
    read_cpu_capacity ⟨8, none⟩ = none ∧
    read_cpu_capacity ⟨8, some (some 3000000)⟩ = some ⟨8, 3000000⟩ ∧
    read_cpu_capacity ⟨0, some none⟩ = some ⟨1, -1⟩ := by
  decide

/-- The numeric memory fields of the per-tick record printed by `main`
(main.c): used/available memory and used/available swap, as written into
the printf argument list. -/
structure tick_record where
  mem_used : ℚ
  mem_avail : ℚ
  mem_swap_used : ℚ
  mem_swap_avail : ℚ
deriving DecidableEq, Repr

/-- Mirror of the four memory arguments of the per-tick `printf` in
`main` (main.c). Note: `mem_swap_avail` is divided by 1024 only once. -/
def emit_mem_fields (mem : mem_stat) : tick_record :=
  { mem_used := ((mem.mem_total_kb - mem.mem_avail_kb : Int) : ℚ) / 1024 / 1024
    mem_avail := (mem.mem_avail_kb : ℚ) / 1024 / 1024
    mem_swap_used := ((mem.swap_total_kb - mem.swap_free_kb : Int) : ℚ) / 1024 / 1024
    mem_swap_avail := (mem.swap_free_kb : ℚ) / 1024 }

/-- C4: evaluation of the emitted swap fields at swapTotalKb = 2097152
(2 GB) and swapFreeKb = 1048576 (1 GB). The swap-used field is in GB as
claimed (value 1), but the swap-free field is divided by 1024 only once,
so it prints 1024 (a megabyte figure) where the claim requires
swapFreeKb/1024/1024 = 1. -/
theorem emit_swap_avail_not_in_gb :
    (emit_mem_fields ⟨0, 0, 2097152, 1048576⟩).mem_swap_used = 1 ∧
    (emit_mem_fields ⟨0, 0, 2097152, 1048576⟩).mem_swap_avail = 1024 ∧
    (emit_mem_fields ⟨0, 0, 2097152, 1048576⟩).mem_swap_avail ≠ 1 := by
  refine ⟨?_, ?_, ?_⟩ <;> norm_num [emit_mem_fields]

/-- One iteration body of the scan loop in `read_mem_stat` (mem.c): match
the key of one `"key value unit"` triple (the unit token is read but
never used), store the value in the corresponding field, and bump the
match counter. -/
def read_mem_step (cap : mem_stat) (cnt : Nat) (kv : String × Int) : mem_stat × Nat :=
  if kv.1 = "MemTotal:" then ({ cap with mem_total_kb := kv.2 }, cnt + 1)
  else if kv.1 = "MemAvailable:" then ({ cap with mem_avail_kb := kv.2 }, cnt + 1)
  else if kv.1 = "SwapTotal:" then ({ cap with swap_total_kb := kv.2 }, cnt + 1)
  else if kv.1 = "SwapFree:" then ({ cap with swap_free_kb := kv.2 }, cnt + 1)
  else (cap, cnt)

/-- The `while (fscanf ... == 3)` loop of `read_mem_stat` (mem.c): the
stream of successfully parsed triples is the list, and `if(cnt==4) break`
stops the scan early. -/
def read_mem_loop : List (String × Int) → mem_stat → Nat → mem_stat
  | [], cap, _ => cap
  | kv :: rest, cap, cnt =>
    let s := read_mem_step cap cnt kv
    if s.2 = 4 then s.1 else read_mem_loop rest s.1 s.2

/-- Mirror of `read_mem_stat` (mem.c) with a non-null argument: `none`
models a source that cannot be opened (`fopen` fails, return -1); all
four fields start at 0 and the parsed triples are scanned in order. -/
def read_mem_stat (source : Option (List (String × Int))) : Option mem_stat :=
  match source with
  | none => none
  | some triples => some (read_mem_loop triples ⟨0, 0, 0, 0⟩ 0)

/-- Whether a key is one of the four extracted meminfo keys. -/
def mem_key_hit (k : String) : Bool :=
  if k = "MemTotal:" then true
  else if k = "MemAvailable:" then true
  else if k = "SwapTotal:" then true
  else if k = "SwapFree:" then true
  else false

/-- The value of the match counter after scanning a whole list, ignoring
the early break. -/
def read_mem_cnt : List (String × Int) → Nat → Nat
  | [], cnt => cnt
  | kv :: rest, cnt => read_mem_cnt rest (if mem_key_hit kv.1 then cnt + 1 else cnt)

lemma read_mem_step_cnt (cap : mem_stat) (cnt : Nat) (kv : String × Int) :
    (read_mem_step cap cnt kv).2 = if mem_key_hit kv.1 then cnt + 1 else cnt := by
  unfold read_mem_step mem_key_hit
  split_ifs <;> simp_all

lemma read_mem_loop_preserves (P : mem_stat → Int) (s : String)
    (hstep : ∀ cap cnt kv, kv.1 ≠ s → P (read_mem_step cap cnt kv).1 = P cap) :
    ∀ (l : List (String × Int)) (cap : mem_stat) (cnt : Nat),
      (∀ kv ∈ l, kv.1 ≠ s) → P (read_mem_loop l cap cnt) = P cap := by
  intro l
  induction l with
  | nil => intro cap cnt _; rfl
  | cons kv rest ih =>
    intro cap cnt h
    have hkv : kv.1 ≠ s := h kv (List.mem_cons_self kv rest)
    have hrest : ∀ kv' ∈ rest, kv'.1 ≠ s := fun kv' hm => h kv' (List.mem_cons_of_mem kv hm)
    rw [read_mem_loop]
    split
    · exact hstep cap cnt kv hkv
    · rw [ih _ _ hrest, hstep cap cnt kv hkv]

lemma read_mem_loop_early_stop :
    ∀ (l rest : List (String × Int)) (cap : mem_stat) (cnt : Nat),
      cnt < 4 → 4 ≤ read_mem_cnt l cnt →
      read_mem_loop (l ++ rest) cap cnt = read_mem_loop l cap cnt := by
  intro l
  induction l with
  | nil =>
    intro rest cap cnt hlt hge
    exact absurd hge (by simp [read_mem_cnt]; omega)
  | cons kv tail ih =>
    intro rest cap cnt hlt hge
    rw [List.cons_append, read_mem_loop, read_mem_loop]
    by_cases h4 : (read_mem_step cap cnt kv).2 = 4
    · rw [if_pos h4, if_pos h4]
    · rw [if_neg h4, if_neg h4]
      have hcnt : (read_mem_step cap cnt kv).2 = if mem_key_hit kv.1 then cnt + 1 else cnt :=
        read_mem_step_cnt cap cnt kv
      have hlt' : (read_mem_step cap cnt kv).2 < 4 := by
        rw [hcnt] at h4 ⊢
        by_cases hk : mem_key_hit kv.1 = true
        · rw [if_pos hk] at h4 ⊢; omega
        · rw [if_neg hk] at h4 ⊢; omega
      have hunfold : read_mem_cnt (kv :: tail) cnt
          = read_mem_cnt tail (if mem_key_hit kv.1 then cnt + 1 else cnt) := rfl
      have hge' : 4 ≤ read_mem_cnt tail (read_mem_step cap cnt kv).2 := by
        rw [hcnt]
        rw [hunfold] at hge
        exact hge
      exact ih rest _ _ hlt' hge'

/-- C9: `read_mem_stat` fails exactly when the source cannot be opened;
any content that opens yields success; a key that never appears in the
content leaves its field at 0; and once the match counter reaches 4 the
remaining triples are never scanned. -/
theorem read_mem_stat_spec :
    read_mem_stat none = none ∧
    (∀ ts, (read_mem_stat (some ts)).isSome = true) ∧
    (∀ ts cap, read_mem_stat (some ts) = some cap →
      (∀ kv ∈ ts, kv.1 ≠ "MemTotal:") → cap.mem_total_kb = 0) ∧
    (∀ ts cap, read_mem_stat (some ts) = some cap →
      (∀ kv ∈ ts, kv.1 ≠ "MemAvailable:") → cap.mem_avail_kb = 0) ∧
    (∀ ts cap, read_mem_stat (some ts) = some cap →
      (∀ kv ∈ ts, kv.1 ≠ "SwapTotal:") → cap.swap_total_kb = 0) ∧
    (∀ ts cap, read_mem_stat (some ts) = some cap →
      (∀ kv ∈ ts, kv.1 ≠ "SwapFree:") → cap.swap_free_kb = 0) ∧
    (∀ l rest, 4 ≤ read_mem_cnt l 0 →
      read_mem_stat (some (l ++ rest)) = read_mem_stat (some l)) := by
  refine ⟨rfl, fun ts => rfl, ?_, ?_, ?_, ?_, ?_⟩
  · intro ts cap hcap h
    have := read_mem_loop_preserves (fun c => c.mem_total_kb) "MemTotal:"
      (by intro cap' cnt kv hkv; unfold read_mem_step; split_ifs <;> simp_all) ts ⟨0, 0, 0, 0⟩ 0 h
    simp only [read_mem_stat, Option.some_inj] at hcap
    rw [← hcap]
    exact this
  · intro ts cap hcap h
    have := read_mem_loop_preserves (fun c => c.mem_avail_kb) "MemAvailable:"
      (by intro cap' cnt kv hkv; unfold read_mem_step; split_ifs <;> simp_all) ts ⟨0, 0, 0, 0⟩ 0 h
    simp only [read_mem_stat, Option.some_inj] at hcap
    rw [← hcap]
    exact this
  · intro ts cap hcap h
    have := read_mem_loop_preserves (fun c => c.swap_total_kb) "SwapTotal:"
      (by intro cap' cnt kv hkv; unfold read_mem_step; split_ifs <;> simp_all) ts ⟨0, 0, 0, 0⟩ 0 h
    simp only [read_mem_stat, Option.some_inj] at hcap
    rw [← hcap]
    exact this
  · intro ts cap hcap h
    have := read_mem_loop_preserves (fun c => c.swap_free_kb) "SwapFree:"
      (by intro cap' cnt kv hkv; unfold read_mem_step; split_ifs <;> simp_all) ts ⟨0, 0, 0, 0⟩ 0 h
    simp only [read_mem_stat, Option.some_inj] at hcap
    rw [← hcap]
    exact this
  · intro l rest hge
    simp only [read_mem_stat, Option.some_inj]
    exact read_mem_loop_early_stop l rest ⟨0, 0, 0, 0⟩ 0 (by omega) hge

/-- C9 witness: the parts of the specification applied to concrete
contents: a content with only an unrecognised key and a swap-total line
leaves the other three fields at 0, and appending an extra line after
all four keys have matched does not change the result. -/
theorem read_mem_stat_spec_witness :
    (read_mem_stat (some [("Cached:", 77), ("SwapTotal:", 3)])).isSome = true ∧
    (read_mem_loop [("Cached:", 77), ("SwapTotal:", 3)] ⟨0, 0, 0, 0⟩ 0).mem_total_kb = 0 ∧
    read_mem_stat (some ([("MemTotal:", 1), ("MemAvailable:", 2), ("SwapTotal:", 3),
        ("SwapFree:", 4)] ++ [("MemTotal:", 99)]))
      = read_mem_stat (some [("MemTotal:", 1), ("MemAvailable:", 2), ("SwapTotal:", 3),
        ("SwapFree:", 4)]) := by
  refine ⟨read_mem_stat_spec.2.1 _, ?_, ?_⟩
  · exact read_mem_stat_spec.2.2.1 [("Cached:", 77), ("SwapTotal:", 3)] _ rfl (by decide)
  · exact read_mem_stat_spec.2.2.2.2.2.2 [("MemTotal:", 1), ("MemAvailable:", 2),
      ("SwapTotal:", 3), ("SwapFree:", 4)] [("MemTotal:", 99)] (by decide)
